import Mathlib

/-!
Verification of the TST-2280 reconciliation scripts
(`pandas_framework.py` and `Apache_framework.py`).

Both scripts load dataset A (invoice rows) and dataset B (counter-party
tiers), drop `invoice_id`, split A by `status` into ARAP and ACCR subsets,
aggregate each subset by `(legal_entity, counter_party)` (sum of `value`,
max of `rating`), outer-join the two aggregates, join the reference data
on `counter_party`, take the row-wise max of the two rating columns,
fill nulls with 0, and select six output columns.

The shallow embedding below models tables as lists of structure rows and
numeric columns as `Int` (the scripts' data are exact small numbers; no
floating-point behaviour is claimed).  Row order in group-by results is
first-occurrence order of each key; pandas additionally sorts group keys,
which no property below depends on (all properties are stated via
membership, counts, or inputs where the two orders coincide).

The two scripts handle empty status subsets differently.  The pandas
script's `groupby(...).agg(...)` keeps its columns on a zero-row subset,
so every later column access succeeds and a file is always written.  The
Beam script's `pivot_table` ends with `dropna(how='all', axis=1)`, which
on a zero-row subset drops all the aggregate's columns; line 86 of
`Apache_framework.py` then raises, the handler only logs, and no result
file is written.  `apache_result_file` models that run outcome; the
plain row-computation functions model the successful path.
-/

namespace Hartree

/-- A cell value as it appears in the written CSV: a string, a number, or
null.  Needed because `fillna(0)` in the Beam script can put the number 0
into the otherwise-string `tier` column. -/
inductive Val where
  | vstr (s : String)
  | vnum (n : Int)
  | vnull
deriving DecidableEq, Repr

/-- A row of dataset A as loaded (pandas line 53 / Beam line 48). -/
structure RowA where
  invoice_id : Int
  legal_entity : String
  counter_party : String
  status : String
  value : Int
  rating : Int
deriving DecidableEq, Repr

/-- A row of dataset A after `drop('invoice_id', axis=1)`
(pandas line 68 / Beam line 65). -/
structure RowA1 where
  legal_entity : String
  counter_party : String
  status : String
  value : Int
  rating : Int
deriving DecidableEq, Repr

/-- A row of dataset B: `counter_party` and `tier`. -/
structure RowB where
  counter_party : String
  tier : String
deriving DecidableEq, Repr

/-- Dropping the `invoice_id` column, row by row (pandas line 68). -/
def drop_invoice_id (r : RowA) : RowA1 :=
  { legal_entity := r.legal_entity, counter_party := r.counter_party,
    status := r.status, value := r.value, rating := r.rating }

/-- The first dataset after the drop step, `self.df1` in the scripts. -/
def df1_of (A : List RowA) : List RowA1 := A.map drop_invoice_id

/-- The grouping key `(legal_entity, counter_party)`. -/
def RowA1.key (r : RowA1) : String × String := (r.legal_entity, r.counter_party)

/-- `arap_df = df1[df1['status'] == 'ARAP']` (pandas line 82, Beam line 79). -/
def arap_df (df1 : List RowA1) : List RowA1 :=
  df1.filter (fun r => decide (r.status = "ARAP"))

/-- `accr_df = df1[df1['status'] == 'ACCR']` (pandas line 83, Beam line 80). -/
def accr_df (df1 : List RowA1) : List RowA1 :=
  df1.filter (fun r => decide (r.status = "ACCR"))

/-- Distinct keys in first-occurrence order, with an accumulator of keys
already emitted; the key extraction step of `groupby`. -/
def dedupKeysAux {α : Type} [DecidableEq α] (seen : List α) : List α → List α
  | [] => []
  | k :: ks => if k ∈ seen then dedupKeysAux seen ks else k :: dedupKeysAux (k :: seen) ks

/-- Distinct keys of a list, in first-occurrence order. -/
def dedupKeys {α : Type} [DecidableEq α] (l : List α) : List α := dedupKeysAux [] l

/-- One row of a per-status aggregate table: `value` summed and `rating`
maxed over one `(legal_entity, counter_party)` group (pandas lines 85-86,
Beam lines 81-82).  `value_sum` is the column renamed to
`arap_value`/`accr_value`; `rating_max` the per-status rating column. -/
structure AggRow where
  legal_entity : String
  counter_party : String
  value_sum : Int
  rating_max : Int
deriving DecidableEq, Repr

/-- Key of an aggregate row (the group-by index). -/
def AggRow.key (a : AggRow) : String × String := (a.legal_entity, a.counter_party)

/-- The summed `value` of the group of `k` inside `rows` (`'value': 'sum'`). -/
def value_agg (rows : List RowA1) (k : String × String) : Int :=
  (((rows.filter (fun r => decide (RowA1.key r = k))).map RowA1.value)).sum

/-- The maximal `rating` of the group of `k` inside `rows`
(`'rating': 'max'`); `none` when the group is empty. -/
def rating_agg (rows : List RowA1) (k : String × String) : Option Int :=
  (((rows.filter (fun r => decide (RowA1.key r = k))).map RowA1.rating)).max?

/-- The aggregate row of one group (groups are nonempty by construction,
so the `getD 0` default is never the result). -/
def agg_row (rows : List RowA1) (k : String × String) : AggRow :=
  { legal_entity := k.1, counter_party := k.2,
    value_sum := value_agg rows k,
    rating_max := (rating_agg rows k).getD 0 }

/-- `groupby(['legal_entity','counter_party']).agg({'value':'sum','rating':'max'})`
(pandas lines 85-86); the Beam script computes the same table with
`pivot_table(..., aggfunc={'value':'sum','rating':'max'})` (lines 81-82). -/
def groupby_agg (rows : List RowA1) : List AggRow :=
  (dedupKeys (rows.map RowA1.key)).map (agg_row rows)

/-- A row of `df_merged`: the outer join of the two aggregates on
`(legal_entity, counter_party)` after the suffix renames (pandas lines
88-90; the Beam script names the rating columns `rating_x`/`rating_y`,
lines 81-83, the same two slots). -/
structure MergedRow where
  legal_entity : String
  counter_party : String
  arap_value : Option Int
  max_rating_x : Option Int
  accr_value : Option Int
  max_rating_y : Option Int
deriving DecidableEq, Repr

/-- Key of a merged row. -/
def MergedRow.key (m : MergedRow) : String × String := (m.legal_entity, m.counter_party)

/-- The merged row produced from an ARAP aggregate row, matched (or not)
against the ACCR aggregate table. -/
def mergeLeftRow (accr : List AggRow) (a : AggRow) : MergedRow :=
  match accr.find? (fun b => decide (AggRow.key b = AggRow.key a)) with
  | some b =>
    { legal_entity := a.legal_entity, counter_party := a.counter_party,
      arap_value := some a.value_sum, max_rating_x := some a.rating_max,
      accr_value := some b.value_sum, max_rating_y := some b.rating_max }
  | none =>
    { legal_entity := a.legal_entity, counter_party := a.counter_party,
      arap_value := some a.value_sum, max_rating_x := some a.rating_max,
      accr_value := none, max_rating_y := none }

/-- The merged row produced from an ACCR aggregate row whose key has no
ARAP-side match. -/
def mergeRightRow (b : AggRow) : MergedRow :=
  { legal_entity := b.legal_entity, counter_party := b.counter_party,
    arap_value := none, max_rating_x := none,
    accr_value := some b.value_sum, max_rating_y := some b.rating_max }

/-- Full outer join of the two aggregate tables on
`(legal_entity, counter_party)` (pandas line 88 `pd.merge(..., how='outer')`,
Beam line 83 `.join(..., how='outer')`): each left row matched against the
right table, then the unmatched right rows. -/
def mergeOuter (arap accr : List AggRow) : List MergedRow :=
  arap.map (mergeLeftRow accr)
    ++ (accr.filter
          (fun b => (arap.find? (fun a => decide (AggRow.key a = AggRow.key b))).isNone)).map
         mergeRightRow

/-- `apply_data_transformation` of the pandas script up to `df_merged`
(lines 82-90): split by status, aggregate each subset, outer-merge. -/
def apply_data_transformation (df1 : List RowA1) : List MergedRow :=
  mergeOuter (groupby_agg (arap_df df1)) (groupby_agg (accr_df df1))

/-- The merged table of the Beam script on its successful path
(`Apache_framework.py` lines 79-83): `query` on status, `pivot_table`
aggregation, `join(how='outer')` — relationally the same three steps as
the pandas lines 82-90, and valid only when BOTH status subsets are
nonempty.  On an empty subset the real `pivot_table` ends with
`dropna(how='all', axis=1)` and so drops every aggregate column; the
merged frame then lacks that side's rating/value columns and line 86
raises.  That error path is modelled by `apache_result_file` below. -/
def apache_transformation_merged (df1 : List RowA1) : List MergedRow :=
  mergeOuter (groupby_agg (arap_df df1)) (groupby_agg (accr_df df1))

/-- A row of the written result: the six selected output columns, in the
source's selection order (pandas line 108, Beam line 89). -/
structure OutRow where
  legal_entity : String
  counter_party : String
  tier : Val
  ratings : Int
  arap_value : Int
  accr_value : Int
deriving DecidableEq, Repr

/-- Key of an output row. -/
def OutRow.key (r : OutRow) : String × String := (r.legal_entity, r.counter_party)

/-- Row-wise `max(axis=1)` over the two rating cells: pandas skips nulls,
so a null cell loses to any value and two nulls give null. -/
def max_axis1 : Option Int → Option Int → Option Int
  | none, y => y
  | some x, none => some x
  | some x, some y => some (max x y)

/-- `fillna(0)` on the `tier` cell: a present tier stays a string, a
missing one becomes the number 0 (Beam line 87). -/
def fillna_tier : Option String → Val
  | some t => Val.vstr t
  | none => Val.vnum 0

/-- One final row built from a merged row and the tier cell of a matching
dataset-B row (`none` when the left join found no match): the `ratings`
column (pandas line 105 / Beam line 86), then `fillna(0)` (line 106 / 87),
then the column drop and selection (lines 107-108 / 88-89). -/
def mkOutRow (m : MergedRow) (tier? : Option String) : OutRow :=
  { legal_entity := m.legal_entity, counter_party := m.counter_party,
    tier := fillna_tier tier?,
    ratings := (max_axis1 m.max_rating_x m.max_rating_y).getD 0,
    arap_value := m.arap_value.getD 0,
    accr_value := m.accr_value.getD 0 }

/-- `merge_with_dataset2` of the pandas script (lines 104-108):
`df_merged.merge(df2, on=['counter_party'])` is an INNER join (pandas
default `how='inner'`), so a merged row pairs with every matching B row
and disappears when there is none. -/
def merge_with_dataset2 (df_merged : List MergedRow) (df2 : List RowB) : List OutRow :=
  df_merged.flatMap (fun m =>
    (df2.filter (fun b => decide (b.counter_party = m.counter_party))).map
      (fun b => mkOutRow m (some b.tier)))

/-- The reference join of the Beam script (line 85):
`df_merged.join(df2.set_index('counter_party'), on='counter_party')` is a
LEFT join (`DataFrame.join` default `how='left'`), so a merged row with no
matching B row is kept with a null tier, which `fillna(0)` then turns
into the number 0. -/
def apache_join_dataset2 (df_merged : List MergedRow) (df2 : List RowB) : List OutRow :=
  df_merged.flatMap (fun m =>
    if df2.filter (fun b => decide (b.counter_party = m.counter_party)) = []
    then [mkOutRow m none]
    else (df2.filter (fun b => decide (b.counter_party = m.counter_party))).map
      (fun b => mkOutRow m (some b.tier)))

/-- The full pandas pipeline from in-memory inputs to the written rows
(`process_data`, lines 127-135, minus file I/O). -/
def process_data_pandas (A : List RowA) (B : List RowB) : List OutRow :=
  merge_with_dataset2 (apply_data_transformation (df1_of A)) B

/-- The rows computed by the full Beam pipeline on its successful path
(`process_data`, lines 108-115, minus file I/O), i.e. when both status
subsets of dataset A are nonempty so that every pivot column exists.
`apache_result_file` models the run outcome including the empty-subset
error path. -/
def process_data_apache (A : List RowA) (B : List RowB) : List OutRow :=
  apache_join_dataset2 (apache_transformation_merged (df1_of A)) B

/-- The result file written by a run of the Beam script (`none` = no file
written).  When the ARAP or the ACCR subset of dataset A is empty, its
`pivot_table` (pandas' final `dropna(how='all', axis=1)` on a zero-row
aggregate) returns a column-less frame, so the merged frame lacks the
`rating_x`/`rating_y` (or value) columns and line 86
`df_final[['rating_x','rating_y']]` raises KeyError; the handler only
logs (lines 91-92), `self.df_final_1` is never assigned, `save_result`
raises AttributeError — also only logged — and no file is written.
When both subsets are nonempty every column exists and the success-path
rows are written (lines 101-106). -/
def apache_result_file (A : List RowA) (B : List RowB) : Option (List OutRow) :=
  if arap_df (df1_of A) = [] ∨ accr_df (df1_of A) = [] then none
  else some (apache_join_dataset2 (apache_transformation_merged (df1_of A)) B)

/-! Column-level model of the final selection, for the output-shape
property.  Column lists are data-independent, so they are modelled as
lists of names transformed by the source's drop and selection steps. -/

/-- Columns of `df_final` in the pandas script just before the drop:
group keys after `reset_index`, the outer-merge columns after the line-89
renames, `tier` from `df2`, and the appended `ratings` (lines 88-105). -/
def df_final_columns_pandas : List String :=
  ["legal_entity", "counter_party", "arap_value", "max_rating_x",
   "accr_value", "max_rating_y", "tier", "ratings"]

/-- Columns of `df_final` in the Beam script before the drop: the
`pivot_table` orders each aggregate's columns alphabetically
(`rating` before `value`), lines 81-86. -/
def df_final_columns_apache : List String :=
  ["legal_entity", "counter_party", "rating_x", "arap_value",
   "rating_y", "accr_value", "tier", "ratings"]

/-- `df.drop(cs, axis=1)` at column level. -/
def drop_columns (cs cols : List String) : List String :=
  cols.filter (fun c => decide (c ∉ cs))

/-- `df[[sel]]` at column level: the selected names in selection order. -/
def select_columns (sel cols : List String) : List String :=
  sel.filter (fun c => decide (c ∈ cols))

/-- The column selection list of pandas line 108 and Beam line 89. -/
def output_selection : List String :=
  ["legal_entity", "counter_party", "tier", "ratings", "arap_value", "accr_value"]

/-- Header of the pandas result file: the wide columns after
`drop(['max_rating_x','max_rating_y'])` and the selection (lines 107-108). -/
def result_columns_pandas : List String :=
  select_columns output_selection
    (drop_columns ["max_rating_x", "max_rating_y"] df_final_columns_pandas)

/-- Header of the Beam result file (lines 88-89). -/
def result_columns_apache : List String :=
  select_columns output_selection
    (drop_columns ["rating_x", "rating_y"] df_final_columns_apache)

/-- The cells of one written row, in output-column order. -/
def outRowCells (r : OutRow) : List Val :=
  [Val.vstr r.legal_entity, Val.vstr r.counter_party, r.tier,
   Val.vnum r.ratings, Val.vnum r.arap_value, Val.vnum r.accr_value]

/-- `save_result` of the pandas script (line 122,
`to_csv(..., index=False)`): the header row of column names followed by
the data cells, no index column. -/
def save_result_pandas (rows : List OutRow) : List String × List (List Val) :=
  (result_columns_pandas, rows.map outRowCells)

/-- `save_result` of the Beam script (line 103). -/
def save_result_apache (rows : List OutRow) : List String × List (List Val) :=
  (result_columns_apache, rows.map outRowCells)

/-! Stateful model of `process_data` in `pandas_framework.py` (lines
127-135).  Every stage method wraps its body in `try/except` and the
handler only logs, so a failing stage leaves `self`'s attributes exactly
as they were and the next stage still runs (lines 51-57, 66-71, 80-93,
102-111, 120-125).  Attributes not yet assigned are `none`; a stage that
would raise (missing file, missing attribute, missing column) is modelled
as the identity on the state, which is what the log-and-continue handler
amounts to.  The `Bool` next to `df1` records whether the loaded frame
still has an `invoice_id` column; the column's values are never read
downstream, so they are not carried. -/

/-- The mutable attributes of the `DataProcessor` instance, plus the
contents of the result file (`none` = never written). -/
structure ProcState where
  df1 : Option (Bool × List RowA1)
  df2 : Option (List RowB)
  df_merged : Option (List MergedRow)
  df_final_1 : Option (List OutRow)
  result_file : Option (List OutRow)
deriving DecidableEq, Repr

/-- A fresh `DataProcessor`: no attribute assigned, nothing written. -/
def initState : ProcState := ⟨none, none, none, none, none⟩

/-- `load_datasets` (lines 51-57): reads dataset A then dataset B inside
one `try`.  `none` input = the corresponding `read_csv` raises; the
exception is logged and swallowed, so attributes assigned before the
raise stay assigned and the rest stay unset. -/
def load_datasets_stage (inA : Option (Bool × List RowA1)) (inB : Option (List RowB))
    (s : ProcState) : ProcState :=
  match inA with
  | none => s
  | some dfa =>
    match inB with
    | none => { s with df1 := some dfa }
    | some dfb => { s with df1 := some dfa, df2 := some dfb }

/-- `drop_invoice_id` (lines 66-71): drops the column when present;
a missing `df1` attribute or a missing `invoice_id` column raises, is
logged, and leaves the state unchanged. -/
def drop_invoice_id_stage (s : ProcState) : ProcState :=
  match s.df1 with
  | some (true, rows) => { s with df1 := some (false, rows) }
  | _ => s

/-- `apply_data_transformation` (lines 80-93): runs on whatever `df1`
currently holds — dropped or not, the transformation only touches the
status, key, value and rating columns; a missing `df1` raises and is
swallowed. -/
def apply_data_transformation_stage (s : ProcState) : ProcState :=
  match s.df1 with
  | some (_, rows) => { s with df_merged := some (apply_data_transformation rows) }
  | none => s

/-- `merge_with_dataset2` (lines 102-111). -/
def merge_with_dataset2_stage (s : ProcState) : ProcState :=
  match s.df_merged, s.df2 with
  | some m, some b => { s with df_final_1 := some (merge_with_dataset2 m b) }
  | _, _ => s

/-- `save_result` (lines 120-125): writes whatever `df_final_1` holds. -/
def save_result_stage (s : ProcState) : ProcState :=
  match s.df_final_1 with
  | some out => { s with result_file := some out }
  | none => s

/-- `process_data` (lines 127-135): the five stages run unconditionally
in sequence, whatever happened before. -/
def process_data (inA : Option (Bool × List RowA1)) (inB : Option (List RowB)) : ProcState :=
  save_result_stage (merge_with_dataset2_stage (apply_data_transformation_stage
    (drop_invoice_id_stage (load_datasets_stage inA inB initState))))

/-! The scenario input of the specification (section 8). -/

/-- Scenario dataset A (invoice ids are arbitrary; the column is dropped). -/
def scenarioA : List RowA :=
  [⟨1, "E1", "C1", "ARAP", 100, 3⟩,
   ⟨2, "E1", "C1", "ACCR", 50, 5⟩,
   ⟨3, "E1", "C2", "ARAP", 10, 2⟩]

/-- Scenario dataset B. -/
def scenarioB : List RowB :=
  [⟨"C1", "Tier1"⟩, ⟨"C2", "Tier2"⟩]

/-- The expected scenario output rows. -/
def scenarioOut : List OutRow :=
  [⟨"E1", "C1", Val.vstr "Tier1", 5, 100, 50⟩,
   ⟨"E1", "C2", Val.vstr "Tier2", 2, 10, 0⟩]

/-! Basic lemmas about key deduplication and the group-by aggregation. -/

theorem mem_dedupKeysAux {α : Type} [DecidableEq α] (l : List α) :
    ∀ (seen : List α) (k : α), k ∈ dedupKeysAux seen l ↔ k ∈ l ∧ k ∉ seen := by
  induction l with
  | nil => intro seen k; simp [dedupKeysAux]
  | cons a l ih =>
    intro seen k
    by_cases ha : a ∈ seen
    · rw [dedupKeysAux, if_pos ha, ih]
      constructor
      · rintro ⟨hk, hs⟩; exact ⟨List.mem_cons_of_mem a hk, hs⟩
      · rintro ⟨hk, hs⟩
        rcases List.mem_cons.mp hk with hk | hk
        · exact absurd (hk ▸ ha) hs
        · exact ⟨hk, hs⟩
    · rw [dedupKeysAux, if_neg ha]
      constructor
      · intro hk
        rcases List.mem_cons.mp hk with hk | hk
        · exact ⟨hk ▸ List.mem_cons_self a l, hk ▸ ha⟩
        · rcases (ih (a :: seen) k).mp hk with ⟨hl, hs⟩
          exact ⟨List.mem_cons_of_mem a hl,
            fun hmem => hs (List.mem_cons_of_mem a hmem)⟩
      · rintro ⟨hk, hs⟩
        rcases List.mem_cons.mp hk with hk | hk
        · exact hk ▸ List.mem_cons_self a _
        · by_cases hka : k = a
          · exact hka ▸ List.mem_cons_self a _
          · exact List.mem_cons_of_mem a ((ih (a :: seen) k).mpr
              ⟨hk, fun hmem => (List.mem_cons.mp hmem).elim hka hs⟩)

theorem nodup_dedupKeysAux {α : Type} [DecidableEq α] (l : List α) :
    ∀ seen : List α, (dedupKeysAux seen l).Nodup := by
  induction l with
  | nil => intro seen; simp [dedupKeysAux]
  | cons a l ih =>
    intro seen
    by_cases ha : a ∈ seen
    · rw [dedupKeysAux, if_pos ha]; exact ih seen
    · rw [dedupKeysAux, if_neg ha]
      refine List.nodup_cons.mpr ⟨fun hmem => ?_, ih (a :: seen)⟩
      exact ((mem_dedupKeysAux l (a :: seen) a).mp hmem).2 (List.mem_cons_self a seen)

theorem mem_dedupKeys {α : Type} [DecidableEq α] {l : List α} {k : α} :
    k ∈ dedupKeys l ↔ k ∈ l := by
  rw [dedupKeys, mem_dedupKeysAux]
  simp

theorem nodup_dedupKeys {α : Type} [DecidableEq α] (l : List α) :
    (dedupKeys l).Nodup := nodup_dedupKeysAux l []

theorem agg_row_key (rows : List RowA1) (k : String × String) :
    AggRow.key (agg_row rows k) = k := rfl

theorem map_key_groupby_agg (rows : List RowA1) :
    (groupby_agg rows).map AggRow.key = dedupKeys (rows.map RowA1.key) := by
  rw [groupby_agg, List.map_map]
  have h : AggRow.key ∘ agg_row rows = id := funext fun k => rfl
  rw [h, List.map_id]

theorem nodup_key_groupby_agg (rows : List RowA1) :
    ((groupby_agg rows).map AggRow.key).Nodup := by
  rw [map_key_groupby_agg]; exact nodup_dedupKeys _

theorem mem_key_groupby_agg {rows : List RowA1} {k : String × String} :
    k ∈ (groupby_agg rows).map AggRow.key ↔ k ∈ rows.map RowA1.key := by
  rw [map_key_groupby_agg]; exact mem_dedupKeys

theorem mem_groupby_agg {rows : List RowA1} {a : AggRow} :
    a ∈ groupby_agg rows ↔ a.key ∈ rows.map RowA1.key ∧ a = agg_row rows a.key := by
  constructor
  · intro h
    rcases List.mem_map.mp h with ⟨k, hk, rfl⟩
    exact ⟨mem_dedupKeys.mp hk, rfl⟩
  · rintro ⟨hk, ha⟩
    exact List.mem_map.mpr ⟨a.key, mem_dedupKeys.mpr hk, ha.symm⟩

theorem filter_key_ne_nil {rows : List RowA1} {k : String × String}
    (h : k ∈ rows.map RowA1.key) :
    rows.filter (fun r => decide (RowA1.key r = k)) ≠ [] := by
  rcases List.mem_map.mp h with ⟨r, hr, rfl⟩
  intro hnil
  have hmem : r ∈ rows.filter (fun r2 => decide (RowA1.key r2 = RowA1.key r)) :=
    List.mem_filter.mpr ⟨hr, by simp⟩
  rw [hnil] at hmem
  cases hmem

theorem filter_key_nil {rows : List RowA1} {k : String × String}
    (h : k ∉ rows.map RowA1.key) :
    rows.filter (fun r => decide (RowA1.key r = k)) = [] := by
  refine List.filter_eq_nil_iff.mpr fun r hr hk => ?_
  exact h (List.mem_map.mpr ⟨r, hr, of_decide_eq_true hk⟩)

theorem rating_agg_isSome {rows : List RowA1} {k : String × String}
    (h : k ∈ rows.map RowA1.key) : ∃ v, rating_agg rows k = some v := by
  rw [rating_agg]
  cases hg : rows.filter (fun r => decide (RowA1.key r = k)) with
  | nil => exact absurd hg (filter_key_ne_nil h)
  | cons r rs => exact ⟨_, rfl⟩

theorem rating_agg_none {rows : List RowA1} {k : String × String}
    (h : k ∉ rows.map RowA1.key) : rating_agg rows k = none := by
  rw [rating_agg, filter_key_nil h]; rfl

theorem rating_agg_getD {rows : List RowA1} {k : String × String}
    (h : k ∈ rows.map RowA1.key) :
    some ((rating_agg rows k).getD 0) = rating_agg rows k := by
  rcases rating_agg_isSome h with ⟨v, hv⟩
  rw [hv]; rfl

/-! Lemmas about the outer merge of the two aggregate tables. -/

theorem key_mergeLeftRow (accr : List AggRow) (a : AggRow) :
    MergedRow.key (mergeLeftRow accr a) = AggRow.key a := by
  rw [mergeLeftRow]
  cases accr.find? (fun b => decide (AggRow.key b = AggRow.key a)) <;> rfl

theorem key_mergeRightRow (b : AggRow) :
    MergedRow.key (mergeRightRow b) = AggRow.key b := rfl

theorem map_key_mergeOuter (arap accr : List AggRow) :
    (mergeOuter arap accr).map MergedRow.key
      = arap.map AggRow.key
        ++ (accr.filter
              (fun b => (arap.find? (fun a => decide (AggRow.key a = AggRow.key b))).isNone)).map
             AggRow.key := by
  rw [mergeOuter, List.map_append, List.map_map, List.map_map]
  congr 1
  exact List.map_congr_left (fun a _ => key_mergeLeftRow accr a)

theorem mem_key_mergeOuter {arap accr : List AggRow} {k : String × String} :
    k ∈ (mergeOuter arap accr).map MergedRow.key
      ↔ k ∈ arap.map AggRow.key ∨ k ∈ accr.map AggRow.key := by
  rw [map_key_mergeOuter, List.mem_append]
  constructor
  · rintro (h | h)
    · exact Or.inl h
    · rcases List.mem_map.mp h with ⟨b, hb, rfl⟩
      exact Or.inr (List.mem_map.mpr ⟨b, (List.mem_filter.mp hb).1, rfl⟩)
  · rintro (h | h)
    · exact Or.inl h
    · by_cases ha : k ∈ arap.map AggRow.key
      · exact Or.inl ha
      · refine Or.inr ?_
        rcases List.mem_map.mp h with ⟨b, hb, rfl⟩
        refine List.mem_map.mpr ⟨b, List.mem_filter.mpr ⟨hb, ?_⟩, rfl⟩
        rw [Option.isNone_iff_eq_none, List.find?_eq_none]
        intro a hamem hpa
        exact ha (List.mem_map.mpr ⟨a, hamem, of_decide_eq_true hpa⟩)

theorem nodup_key_mergeOuter {arap accr : List AggRow}
    (ha : (arap.map AggRow.key).Nodup) (hb : (accr.map AggRow.key).Nodup) :
    ((mergeOuter arap accr).map MergedRow.key).Nodup := by
  rw [map_key_mergeOuter]
  refine List.Nodup.append ha (hb.sublist ((List.filter_sublist accr).map AggRow.key)) ?_
  intro k hk1 hk2
  rcases List.mem_map.mp hk2 with ⟨b, hbf, rfl⟩
  have hnone := Option.isNone_iff_eq_none.mp (List.mem_filter.mp hbf).2
  rcases List.mem_map.mp hk1 with ⟨a, hamem, hka⟩
  have := List.find?_eq_none.mp hnone a hamem
  exact this (decide_eq_true hka)

/-! Generic lemmas about filtering and counting over the key-preserving
flat maps that model the reference joins. -/

theorem filter_key_flatMap_nil {α β κ : Type} [DecidableEq κ] (kf : α → κ) (kg : β → κ)
    (f : α → List β) (hf : ∀ m, ∀ r ∈ f m, kg r = kf m) (k : κ) :
    ∀ ms : List α, k ∉ ms.map kf →
      (ms.flatMap f).filter (fun r => decide (kg r = k)) = [] := by
  intro ms
  induction ms with
  | nil => intro _; rfl
  | cons m0 ms ih =>
    intro hk
    rw [List.flatMap_cons, List.filter_append]
    have h1 : (f m0).filter (fun r => decide (kg r = k)) = [] := by
      refine List.filter_eq_nil_iff.mpr fun r hr hkr => ?_
      have : kg r = kf m0 := hf m0 r hr
      exact hk (List.mem_map.mpr ⟨m0, List.mem_cons_self m0 ms,
        by rw [← this, of_decide_eq_true hkr]⟩)
    rw [h1, List.nil_append]
    refine ih fun hmem => hk ?_
    rw [List.map_cons]
    exact List.mem_cons_of_mem (kf m0) hmem

theorem filter_key_flatMap {α β κ : Type} [DecidableEq κ] (kf : α → κ) (kg : β → κ)
    (f : α → List β) (hf : ∀ m, ∀ r ∈ f m, kg r = kf m) :
    ∀ ms : List α, (ms.map kf).Nodup → ∀ m ∈ ms,
      (ms.flatMap f).filter (fun r => decide (kg r = kf m)) = f m := by
  intro ms
  induction ms with
  | nil => intro _ m hm; cases hm
  | cons m0 ms ih =>
    intro hnd m hm
    rw [List.flatMap_cons, List.filter_append]
    have hnd2 := List.nodup_cons.mp (by rw [← List.map_cons]; exact hnd)
    rcases List.mem_cons.mp hm with rfl | hm
    · have h1 : (f m).filter (fun r => decide (kg r = kf m)) = f m :=
        List.filter_eq_self.mpr fun r hr => decide_eq_true (hf m r hr)
      rw [h1, filter_key_flatMap_nil kf kg f hf (kf m) ms hnd2.1, List.append_nil]
    · have hne : kf m ≠ kf m0 := by
        intro he
        exact hnd2.1 (he ▸ List.mem_map.mpr ⟨m, hm, rfl⟩)
      have h1 : (f m0).filter (fun r => decide (kg r = kf m)) = [] := by
        refine List.filter_eq_nil_iff.mpr fun r hr hkr => ?_
        exact hne (by rw [← of_decide_eq_true hkr, hf m0 r hr])
      rw [h1, List.nil_append]
      exact ih hnd2.2 m hm

theorem mergeLeftRow_eq_some {accr : List AggRow} {a b : AggRow}
    (hf : accr.find? (fun b2 => decide (AggRow.key b2 = AggRow.key a)) = some b) :
    mergeLeftRow accr a
      = { legal_entity := a.legal_entity, counter_party := a.counter_party,
          arap_value := some a.value_sum, max_rating_x := some a.rating_max,
          accr_value := some b.value_sum, max_rating_y := some b.rating_max } := by
  rw [mergeLeftRow, hf]

theorem mergeLeftRow_eq_none {accr : List AggRow} {a : AggRow}
    (hf : accr.find? (fun b2 => decide (AggRow.key b2 = AggRow.key a)) = none) :
    mergeLeftRow accr a
      = { legal_entity := a.legal_entity, counter_party := a.counter_party,
          arap_value := some a.value_sum, max_rating_x := some a.rating_max,
          accr_value := none, max_rating_y := none } := by
  rw [mergeLeftRow, hf]

/-- Field characterisation of the rows of the outer-merged table: the two
rating cells carry exactly the per-status rating aggregates of the row's
key (null when the key has no rows of that status), and the two value
cells carry the per-status value sums, null when the side is absent. -/
theorem merged_fields {df1 : List RowA1} {m : MergedRow}
    (hm : m ∈ apply_data_transformation df1) :
    m.max_rating_x = rating_agg (arap_df df1) m.key
    ∧ m.max_rating_y = rating_agg (accr_df df1) m.key
    ∧ (m.key ∈ (arap_df df1).map RowA1.key →
        m.arap_value = some (value_agg (arap_df df1) m.key))
    ∧ (m.key ∉ (arap_df df1).map RowA1.key → m.arap_value = none)
    ∧ (m.key ∈ (accr_df df1).map RowA1.key →
        m.accr_value = some (value_agg (accr_df df1) m.key))
    ∧ (m.key ∉ (accr_df df1).map RowA1.key → m.accr_value = none) := by
  rw [apply_data_transformation, mergeOuter] at hm
  rcases List.mem_append.mp hm with hm | hm
  · rcases List.mem_map.mp hm with ⟨a, hamem, rfl⟩
    rw [groupby_agg] at hamem
    rcases List.mem_map.mp hamem with ⟨k, hkmem, rfl⟩
    have hk : k ∈ (arap_df df1).map RowA1.key := mem_dedupKeys.mp hkmem
    cases hf : (groupby_agg (accr_df df1)).find?
        (fun b => decide (AggRow.key b = AggRow.key (agg_row (arap_df df1) k))) with
    | some b =>
      have hbmem := List.mem_of_find?_eq_some hf
      have hbp : AggRow.key b = k := by
        have h0 := List.find?_some hf
        simp only [decide_eq_true_eq] at h0
        exact h0
      rw [groupby_agg] at hbmem
      rcases List.mem_map.mp hbmem with ⟨k2, hk2mem, rfl⟩
      have hk2 : k2 ∈ (accr_df df1).map RowA1.key := mem_dedupKeys.mp hk2mem
      have hkk : k2 = k := hbp
      subst hkk
      rw [mergeLeftRow_eq_some hf]
      exact ⟨rating_agg_getD hk, rating_agg_getD hk2,
        fun _ => rfl, fun hn => absurd hk hn, fun _ => rfl, fun hn => absurd hk2 hn⟩
    | none =>
      have hnacc : k ∉ (accr_df df1).map RowA1.key := by
        intro hmem
        rcases List.mem_map.mp (mem_key_groupby_agg.mpr hmem) with ⟨b, hbmem, hbk⟩
        exact absurd (decide_eq_true hbk) (List.find?_eq_none.mp hf b hbmem)
      rw [mergeLeftRow_eq_none hf]
      exact ⟨rating_agg_getD hk, (rating_agg_none hnacc).symm,
        fun _ => rfl, fun hn => absurd hk hn, fun h => absurd h hnacc, fun _ => rfl⟩
  · rcases List.mem_map.mp hm with ⟨b, hbf, rfl⟩
    have hbmem := (List.mem_filter.mp hbf).1
    have hbnone := Option.isNone_iff_eq_none.mp (List.mem_filter.mp hbf).2
    rw [groupby_agg] at hbmem
    rcases List.mem_map.mp hbmem with ⟨k, hkmem, rfl⟩
    have hk : k ∈ (accr_df df1).map RowA1.key := mem_dedupKeys.mp hkmem
    have hnar : k ∉ (arap_df df1).map RowA1.key := by
      intro hmem
      rcases List.mem_map.mp (mem_key_groupby_agg.mpr hmem) with ⟨a, hamem, hak⟩
      exact absurd (decide_eq_true hak) (List.find?_eq_none.mp hbnone a hamem)
    exact ⟨(rating_agg_none hnar).symm, rating_agg_getD hk,
      fun h => absurd h hnar, fun _ => rfl, fun _ => rfl, fun hn => absurd hk hn⟩

/-- Keys of merged rows come from a status-relevant row of the dropped
first dataset. -/
theorem merged_row_from_df1 {df1 : List RowA1} {m : MergedRow}
    (hm : m ∈ apply_data_transformation df1) :
    ∃ r ∈ df1, (r.status = "ARAP" ∨ r.status = "ACCR") ∧ RowA1.key r = MergedRow.key m := by
  have hkey : MergedRow.key m ∈ (apply_data_transformation df1).map MergedRow.key :=
    List.mem_map_of_mem MergedRow.key hm
  rw [apply_data_transformation] at hkey
  rcases mem_key_mergeOuter.mp hkey with h | h
  · rcases List.mem_map.mp (mem_key_groupby_agg.mp h) with ⟨r, hr, hrk⟩
    have hrf := List.mem_filter.mp hr
    exact ⟨r, hrf.1, Or.inl (of_decide_eq_true hrf.2), hrk⟩
  · rcases List.mem_map.mp (mem_key_groupby_agg.mp h) with ⟨r, hr, hrk⟩
    have hrf := List.mem_filter.mp hr
    exact ⟨r, hrf.1, Or.inr (of_decide_eq_true hrf.2), hrk⟩

theorem key_mkOutRow (m : MergedRow) (t : Option String) :
    OutRow.key (mkOutRow m t) = MergedRow.key m := rfl

theorem mem_merge_with_dataset2 {merged : List MergedRow} {B : List RowB} {r : OutRow}
    (hr : r ∈ merge_with_dataset2 merged B) :
    ∃ m ∈ merged, ∃ b ∈ B, b.counter_party = m.counter_party
      ∧ r = mkOutRow m (some b.tier) := by
  rcases List.mem_flatMap.mp hr with ⟨m, hm, hr2⟩
  rcases List.mem_map.mp hr2 with ⟨b, hb, rfl⟩
  have hbf := List.mem_filter.mp hb
  exact ⟨m, hm, b, hbf.1, of_decide_eq_true hbf.2, rfl⟩

theorem mem_apache_join_dataset2 {merged : List MergedRow} {B : List RowB} {r : OutRow}
    (hr : r ∈ apache_join_dataset2 merged B) :
    ∃ m ∈ merged,
      ((∃ b ∈ B, b.counter_party = m.counter_party ∧ r = mkOutRow m (some b.tier))
        ∨ (B.filter (fun b => decide (b.counter_party = m.counter_party)) = []
            ∧ r = mkOutRow m none)) := by
  rcases List.mem_flatMap.mp hr with ⟨m, hm, hr2⟩
  by_cases hbs : B.filter (fun b => decide (b.counter_party = m.counter_party)) = []
  · rw [if_pos hbs] at hr2
    rcases List.mem_singleton.mp hr2 with rfl
    exact ⟨m, hm, Or.inr ⟨hbs, rfl⟩⟩
  · rw [if_neg hbs] at hr2
    rcases List.mem_map.mp hr2 with ⟨b, hb, rfl⟩
    have hbf := List.mem_filter.mp hb
    exact ⟨m, hm, Or.inl ⟨b, hbf.1, of_decide_eq_true hbf.2, rfl⟩⟩

theorem flatMap_congr_mem {α β : Type} {l : List α} {f g : α → List β}
    (h : ∀ a ∈ l, f a = g a) : l.flatMap f = l.flatMap g := by
  induction l with
  | nil => rfl
  | cons a l ih =>
    rw [List.flatMap_cons, List.flatMap_cons, h a (List.mem_cons_self a l),
      ih fun b hb => h b (List.mem_cons_of_mem a hb)]

/-- Every output row of either pipeline is `mkOutRow` of a merged row. -/
theorem out_row_cases {A : List RowA} {B : List RowB} {r : OutRow}
    (hr : r ∈ process_data_pandas A B ∨ r ∈ process_data_apache A B) :
    ∃ m ∈ apply_data_transformation (df1_of A), ∃ t : Option String, r = mkOutRow m t := by
  rcases hr with hr | hr
  · rcases mem_merge_with_dataset2 hr with ⟨m, hm, b, -, -, rfl⟩
    exact ⟨m, hm, some b.tier, rfl⟩
  · rcases mem_apache_join_dataset2 hr with ⟨m, hm, hcase⟩
    rcases hcase with ⟨b, -, -, rfl⟩ | ⟨-, rfl⟩
    · exact ⟨m, hm, some b.tier, rfl⟩
    · exact ⟨m, hm, none, rfl⟩

theorem max_axis1_getD_some {x y : Option Int} (h : x ≠ none ∨ y ≠ none) :
    some ((max_axis1 x y).getD 0) = max_axis1 x y := by
  cases x with
  | none =>
    cases y with
    | none => rcases h with h | h <;> exact absurd rfl h
    | some b => rfl
  | some a => cases y <;> rfl

theorem filter_map_drop (A : List RowA) (p : RowA1 → Bool) :
    (A.map drop_invoice_id).filter p
      = (A.filter (fun a => p (drop_invoice_id a))).map drop_invoice_id := by
  induction A with
  | nil => rfl
  | cons a A ih =>
    rw [List.map_cons, List.filter_cons, List.filter_cons]
    cases hp : p (drop_invoice_id a) with
    | true => rw [if_pos rfl, if_pos rfl, List.map_cons, ih]
    | false => rw [if_neg (by simp), if_neg (by simp), ih]

/-- Rows whose status is neither ARAP nor ACCR do not change either
status subset: filtering dataset A down to the two recognised statuses
first leaves both subsets as they were. -/
theorem filter_drop_status (A : List RowA) (st : String)
    (himp : ∀ a : RowA, a.status = st → (a.status = "ARAP" ∨ a.status = "ACCR")) :
    (df1_of (A.filter (fun a => decide (a.status = "ARAP" ∨ a.status = "ACCR")))).filter
        (fun r => decide (r.status = st))
      = (df1_of A).filter (fun r => decide (r.status = st)) := by
  rw [df1_of, df1_of, filter_map_drop, filter_map_drop]
  congr 1
  rw [List.filter_filter]
  refine List.filter_congr fun a _ => ?_
  by_cases h : a.status = st
  · rw [decide_eq_true (show (drop_invoice_id a).status = st from h),
      decide_eq_true (himp a h)]
    rfl
  · rw [decide_eq_false (show ¬(drop_invoice_id a).status = st from h),
      Bool.false_and]

/-! The claims. -/

/-- Claim C1: running the pipeline on the scenario inputs — dataset A rows
(E1,C1,ARAP,100,3), (E1,C1,ACCR,50,5), (E1,C2,ARAP,10,2) and dataset B
rows (C1,Tier1), (C2,Tier2) — produces exactly the output rows
(E1,C1,Tier1,5,100,50) and (E1,C2,Tier2,2,10,0), for both the pandas
variant and the Beam variant. -/
theorem c1_scenario_output :
    process_data_pandas scenarioA scenarioB = scenarioOut
    ∧ process_data_apache scenarioA scenarioB = scenarioOut :=
  ⟨by decide, by decide⟩

/-- A one-row dataset A whose counter_party has no row in dataset B. -/
def cexA : List RowA := [⟨1, "E1", "C1", "ARAP", 100, 3⟩]

/-- A reference table matching `cexA`'s only counter_party exactly once. -/
def cexB : List RowB := [⟨"C1", "Tier1"⟩]

/-- On the Beam script's successful path, the two variants' row
computations agree whenever every counter_party of dataset A has at
least one matching row in dataset B. -/
theorem pandas_rows_eq_apache_rows (A : List RowA) (B : List RowB)
    (h : ∀ a ∈ A, ∃ b ∈ B, b.counter_party = a.counter_party) :
    process_data_pandas A B
      = apache_join_dataset2 (apache_transformation_merged (df1_of A)) B := by
  rw [process_data_pandas, merge_with_dataset2, apache_join_dataset2]
  have hsame : apache_transformation_merged (df1_of A)
      = apply_data_transformation (df1_of A) := rfl
  rw [hsame]
  refine flatMap_congr_mem fun m hmem => ?_
  rcases merged_row_from_df1 hmem with ⟨r1, hr1, -, hkey⟩
  rcases List.mem_map.mp hr1 with ⟨a, ha, rfl⟩
  rcases h a ha with ⟨b, hb, hcp⟩
  have hcp2 : a.counter_party = m.counter_party := congrArg Prod.snd hkey
  have hbne : B.filter (fun b2 => decide (b2.counter_party = m.counter_party)) ≠ [] := by
    intro hnil
    have hmem2 : b ∈ B.filter (fun b2 => decide (b2.counter_party = m.counter_party)) :=
      List.mem_filter.mpr ⟨hb, decide_eq_true (hcp.trans hcp2)⟩
    rw [hnil] at hmem2
    cases hmem2
  rw [if_neg hbne]

/-- Claim C2 counterexample: on dataset A = one ARAP row for (E1,C1) —
so the ACCR subset is empty — with a matching dataset B, the pandas
variant writes a one-row table, but the Beam variant's `pivot_table` on
the empty ACCR subset drops its columns, line 86 raises, and no file is
written at all: the two variants do not produce the same final table. -/
theorem c2_variants_differ_cex :
    apache_result_file cexA cexB = none
    ∧ process_data_pandas cexA cexB = [⟨"E1", "C1", Val.vstr "Tier1", 3, 100, 0⟩]
    ∧ some (process_data_pandas cexA cexB) ≠ apache_result_file cexA cexB :=
  ⟨by decide, by decide, by decide⟩

/-- Claim C2 (amended): when both status subsets of dataset A are
nonempty (so the Beam script's pivot keeps its columns and a file is
written) and every counter_party of dataset A has at least one matching
row in dataset B, the two variants produce the same final table.
Otherwise they can differ: with an empty ARAP or ACCR subset the Beam
script crashes and writes nothing while pandas writes a file, and an
unmatched counter_party is dropped by the pandas inner reference join
but kept with tier 0 by the Beam left join. -/
theorem c2_variants_agree (A : List RowA) (B : List RowB)
    (hne1 : arap_df (df1_of A) ≠ []) (hne2 : accr_df (df1_of A) ≠ [])
    (h : ∀ a ∈ A, ∃ b ∈ B, b.counter_party = a.counter_party) :
    apache_result_file A B = some (process_data_pandas A B) := by
  have hcond : ¬(arap_df (df1_of A) = [] ∨ accr_df (df1_of A) = []) := by
    rintro (h0 | h0)
    · exact hne1 h0
    · exact hne2 h0
  rw [apache_result_file, if_neg hcond, pandas_rows_eq_apache_rows A B h]

/-- Witness for the amended claim C2 at the scenario input, where both
status subsets are nonempty and every counter_party of dataset A is
matched in dataset B. -/
theorem c2_variants_agree_witness :
    arap_df (df1_of scenarioA) ≠ []
    ∧ accr_df (df1_of scenarioA) ≠ []
    ∧ (∀ a ∈ scenarioA, ∃ b ∈ scenarioB, b.counter_party = a.counter_party)
    ∧ apache_result_file scenarioA scenarioB
        = some (process_data_pandas scenarioA scenarioB) :=
  ⟨by decide, by decide, by decide,
    c2_variants_agree scenarioA scenarioB (by decide) (by decide) (by decide)⟩

/-- Claim C8 (the code, against the claim): when dataset A lacks the
invoice_id column the drop stage raises; the except-handler only logs, so
every later stage still runs on the un-dropped frame and the full result
file is written.  The claim requires the run to abort at the failing
stage with no output file; the code instead continues and writes. -/
theorem c8_continues_after_failure :
    (process_data (some (false, df1_of scenarioA)) (some scenarioB)).result_file
      = some scenarioOut
    ∧ scenarioOut ≠ [] :=
  ⟨by decide, by decide⟩

/-- The single merged row of `cexA`'s transformation. -/
def cexMerged : MergedRow := ⟨"E1", "C1", some 100, some 3, none, none⟩

/-- Claim C9 counterexample: on dataset A = `cexA` (ACCR subset empty)
with an empty dataset B, the merged (E1,C1) row has no reference match,
but the real Beam run crashes in apply_data_transformation and writes no
output at all, so no final output with a tier-0 row exists. -/
theorem c9_unmatched_tier_zero_cex :
    cexMerged ∈ apache_transformation_merged (df1_of cexA)
    ∧ ([] : List RowB).filter
        (fun b => decide (b.counter_party = cexMerged.counter_party)) = []
    ∧ apache_result_file cexA [] = none :=
  ⟨by decide, rfl, by decide⟩

/-- Claim C9 (amended): when both status subsets of dataset A are
nonempty — so the Beam script reaches its output at all — a merged row
whose counter_party has no matching row in dataset B is retained by the
left join, and its tier cell in the written file is the number 0, not
null, because fillna(0) applies to the tier column too. -/
theorem c9_unmatched_tier_zero (A : List RowA) (B : List RowB) (m : MergedRow)
    (hne1 : arap_df (df1_of A) ≠ []) (hne2 : accr_df (df1_of A) ≠ [])
    (hm : m ∈ apache_transformation_merged (df1_of A))
    (hB : B.filter (fun b => decide (b.counter_party = m.counter_party)) = []) :
    ∃ rows, apache_result_file A B = some rows
      ∧ mkOutRow m none ∈ rows
      ∧ (mkOutRow m none).tier = Val.vnum 0
      ∧ (mkOutRow m none).tier ≠ Val.vnull := by
  have hcond : ¬(arap_df (df1_of A) = [] ∨ accr_df (df1_of A) = []) := by
    rintro (h0 | h0)
    · exact hne1 h0
    · exact hne2 h0
  refine ⟨apache_join_dataset2 (apache_transformation_merged (df1_of A)) B, ?_, ?_, rfl,
    fun hc => Val.noConfusion hc⟩
  · rw [apache_result_file, if_neg hcond]
  · rw [apache_join_dataset2]
    refine List.mem_flatMap.mpr ⟨m, hm, ?_⟩
    rw [if_pos hB]
    exact List.mem_singleton.mpr rfl

/-- Dataset A with both status subsets nonempty and the ARAP key's
counter_party C1 absent from the reference data. -/
def c9A : List RowA :=
  [⟨1, "E1", "C1", "ARAP", 100, 3⟩, ⟨2, "E1", "C2", "ACCR", 50, 5⟩]

/-- Reference data matching only C2, leaving C1 unmatched. -/
def c9B : List RowB := [⟨"C2", "Tier2"⟩]

/-- Witness for the amended claim C9: on `c9A` (both subsets nonempty)
and `c9B` (no row for C1), the file is written and holds the merged
(E1,C1) row with tier cell 0. -/
theorem c9_unmatched_tier_zero_witness :
    arap_df (df1_of c9A) ≠ []
    ∧ accr_df (df1_of c9A) ≠ []
    ∧ cexMerged ∈ apache_transformation_merged (df1_of c9A)
    ∧ c9B.filter (fun b => decide (b.counter_party = cexMerged.counter_party)) = []
    ∧ (∃ rows, apache_result_file c9A c9B = some rows
        ∧ mkOutRow cexMerged none ∈ rows
        ∧ (mkOutRow cexMerged none).tier = Val.vnum 0
        ∧ (mkOutRow cexMerged none).tier ≠ Val.vnull) :=
  ⟨by decide, by decide, by decide, by decide,
    c9_unmatched_tier_zero c9A c9B cexMerged (by decide) (by decide) (by decide) (by decide)⟩

/-- Claim C4: for every output row of either variant, the ratings cell is
the null-safe row-wise maximum of the ARAP-side and ACCR-side rating
aggregates of the row's key, where a null side loses (max(null,x) = x). -/
theorem c4_ratings_null_safe_max (A : List RowA) (B : List RowB) (r : OutRow)
    (hr : r ∈ process_data_pandas A B ∨ r ∈ process_data_apache A B) :
    some r.ratings
      = max_axis1 (rating_agg (arap_df (df1_of A)) r.key)
                  (rating_agg (accr_df (df1_of A)) r.key)
    ∧ (∀ x : Option Int, max_axis1 none x = x ∧ max_axis1 x none = x) := by
  obtain ⟨m, hm, t, rfl⟩ := out_row_cases hr
  obtain ⟨hx, hy, -⟩ := merged_fields hm
  refine ⟨?_, fun x => ⟨rfl, by cases x <;> rfl⟩⟩
  have hkey := List.mem_map_of_mem MergedRow.key hm
  rw [apply_data_transformation] at hkey
  have hor : m.max_rating_x ≠ none ∨ m.max_rating_y ≠ none := by
    rcases mem_key_mergeOuter.mp hkey with h | h
    · left
      rcases rating_agg_isSome (mem_key_groupby_agg.mp h) with ⟨v, hv⟩
      rw [hx, hv]
      exact fun hc => Option.noConfusion hc
    · right
      rcases rating_agg_isSome (mem_key_groupby_agg.mp h) with ⟨v, hv⟩
      rw [hy, hv]
      exact fun hc => Option.noConfusion hc
  rw [key_mkOutRow, ← hx, ← hy]
  exact max_axis1_getD_some hor

/-- Dataset A for the rating witness: one key in both subsets, with group
maximum ratings 3 (ARAP) and 7 (ACCR). -/
def c4A : List RowA :=
  [⟨1, "E1", "C1", "ARAP", 100, 3⟩, ⟨2, "E1", "C1", "ACCR", 50, 7⟩]

/-- Dataset B for the rating witness. -/
def c4B : List RowB := [⟨"C1", "Tier1"⟩]

/-- The output row of the rating witness input. -/
def c4row : OutRow := ⟨"E1", "C1", Val.vstr "Tier1", 7, 100, 50⟩

/-- Witness for claim C4: a pair present in both subsets with aggregate
ratings 3 and 7 gets ratings = 7. -/
theorem c4_ratings_null_safe_max_witness :
    (c4row ∈ process_data_pandas c4A c4B ∨ c4row ∈ process_data_apache c4A c4B)
    ∧ rating_agg (arap_df (df1_of c4A)) c4row.key = some 3
    ∧ rating_agg (accr_df (df1_of c4A)) c4row.key = some 7
    ∧ c4row.ratings = 7
    ∧ (some c4row.ratings
        = max_axis1 (rating_agg (arap_df (df1_of c4A)) c4row.key)
                    (rating_agg (accr_df (df1_of c4A)) c4row.key)
       ∧ (∀ x : Option Int, max_axis1 none x = x ∧ max_axis1 x none = x)) :=
  ⟨Or.inl (by decide), by decide, by decide, by decide,
    c4_ratings_null_safe_max c4A c4B c4row (Or.inl (by decide))⟩

/-- Claim C5: a key that occurs only in the ARAP subset and survives the
reference join gets accr_value = 0 and arap_value = the summed ARAP value;
symmetrically for a key only in the ACCR subset. -/
theorem c5_zero_fill (A : List RowA) (B : List RowB) (r : OutRow) (e c : String)
    (hr : r ∈ process_data_pandas A B ∨ r ∈ process_data_apache A B)
    (hkey : OutRow.key r = (e, c)) :
    ((e, c) ∈ (arap_df (df1_of A)).map RowA1.key →
        (e, c) ∉ (accr_df (df1_of A)).map RowA1.key →
        r.accr_value = 0 ∧ r.arap_value = value_agg (arap_df (df1_of A)) (e, c))
    ∧ ((e, c) ∈ (accr_df (df1_of A)).map RowA1.key →
        (e, c) ∉ (arap_df (df1_of A)).map RowA1.key →
        r.arap_value = 0 ∧ r.accr_value = value_agg (accr_df (df1_of A)) (e, c)) := by
  obtain ⟨m, hm, t, rfl⟩ := out_row_cases hr
  have hk : MergedRow.key m = (e, c) := hkey
  obtain ⟨-, -, hain, hanone, hcin, hcnone⟩ := merged_fields hm
  constructor
  · intro h1 h2
    constructor
    · have hnone := hcnone (by rw [hk]; exact h2)
      show m.accr_value.getD 0 = 0
      rw [hnone]
      rfl
    · have hsome := hain (by rw [hk]; exact h1)
      show m.arap_value.getD 0 = value_agg (arap_df (df1_of A)) (e, c)
      rw [hsome, hk]
      rfl
  · intro h1 h2
    constructor
    · have hnone := hanone (by rw [hk]; exact h2)
      show m.arap_value.getD 0 = 0
      rw [hnone]
      rfl
    · have hsome := hcin (by rw [hk]; exact h1)
      show m.accr_value.getD 0 = value_agg (accr_df (df1_of A)) (e, c)
      rw [hsome, hk]
      rfl

/-- The scenario output row for the ARAP-only key (E1,C2). -/
def c5row : OutRow := ⟨"E1", "C2", Val.vstr "Tier2", 2, 10, 0⟩

/-- Witness for claim C5: in the scenario, (E1,C2) occurs only in the ARAP
subset and its output row has accr_value = 0 and arap_value = 10. -/
theorem c5_zero_fill_witness :
    (c5row ∈ process_data_pandas scenarioA scenarioB
      ∨ c5row ∈ process_data_apache scenarioA scenarioB)
    ∧ OutRow.key c5row = ("E1", "C2")
    ∧ ("E1", "C2") ∈ (arap_df (df1_of scenarioA)).map RowA1.key
    ∧ ("E1", "C2") ∉ (accr_df (df1_of scenarioA)).map RowA1.key
    ∧ ((("E1", "C2") ∈ (arap_df (df1_of scenarioA)).map RowA1.key →
          ("E1", "C2") ∉ (accr_df (df1_of scenarioA)).map RowA1.key →
          c5row.accr_value = 0
            ∧ c5row.arap_value = value_agg (arap_df (df1_of scenarioA)) ("E1", "C2"))
        ∧ (("E1", "C2") ∈ (accr_df (df1_of scenarioA)).map RowA1.key →
            ("E1", "C2") ∉ (arap_df (df1_of scenarioA)).map RowA1.key →
            c5row.arap_value = 0
              ∧ c5row.accr_value = value_agg (accr_df (df1_of scenarioA)) ("E1", "C2"))) :=
  ⟨Or.inl (by decide), rfl, by decide, by decide,
    c5_zero_fill scenarioA scenarioB c5row "E1" "C2" (Or.inl (by decide)) rfl⟩

theorem pandas_join_key_preserving (B : List RowB) :
    ∀ m : MergedRow,
      ∀ r ∈ (B.filter (fun b => decide (b.counter_party = m.counter_party))).map
          (fun b => mkOutRow m (some b.tier)),
        OutRow.key r = MergedRow.key m := by
  intro m r hr
  rcases List.mem_map.mp hr with ⟨b, -, rfl⟩
  rfl

theorem apache_join_key_preserving (B : List RowB) :
    ∀ m : MergedRow,
      ∀ r ∈ (if B.filter (fun b => decide (b.counter_party = m.counter_party)) = []
             then [mkOutRow m none]
             else (B.filter (fun b => decide (b.counter_party = m.counter_party))).map
               (fun b => mkOutRow m (some b.tier))),
        OutRow.key r = MergedRow.key m := by
  intro m r hr
  by_cases hbs : B.filter (fun b => decide (b.counter_party = m.counter_party)) = []
  · rw [if_pos hbs] at hr
    rcases List.mem_singleton.mp hr with rfl
    rfl
  · rw [if_neg hbs] at hr
    rcases List.mem_map.mp hr with ⟨b, -, rfl⟩
    rfl

/-- The keys of the merged table are pairwise distinct. -/
theorem nodup_merged_keys (df1 : List RowA1) :
    ((apply_data_transformation df1).map MergedRow.key).Nodup := by
  rw [apply_data_transformation]
  exact nodup_key_mergeOuter (nodup_key_groupby_agg _) (nodup_key_groupby_agg _)

/-- Claim C3 counterexample: `cexA` has one ARAP row keyed (E1,C1) whose
counter_party appears exactly once in `cexB`, but the ACCR subset is
empty, so the real Beam run crashes in apply_data_transformation and
writes no output table — the key does not appear exactly once in any
Beam output. -/
theorem c3_completeness_cex :
    (∀ a ∈ cexA,
      (cexB.filter (fun b => decide (b.counter_party = a.counter_party))).length = 1)
    ∧ ("E1", "C1") ∈ (arap_df (df1_of cexA)).map RowA1.key
    ∧ apache_result_file cexA cexB = none
    ∧ ((apache_result_file cexA cexB).getD []).countP
        (fun r => decide (OutRow.key r = ("E1", "C1"))) = 0 :=
  ⟨by decide, by decide, by decide, by decide⟩

/-- Claim C3 (amended): when every counter_party of dataset A appears
exactly once in dataset B, every key of the ARAP or ACCR subset appears
exactly once in the pandas output; such a key's merged row exists (not
dropped by the outer merge), with null missing-side columns; and the
Beam variant writes a file in which the key appears exactly once
provided both status subsets are nonempty — on an empty subset the Beam
script crashes and writes no output at all. -/
theorem c3_completeness (A : List RowA) (B : List RowB) (k : String × String)
    (hB : ∀ a ∈ A,
      (B.filter (fun b => decide (b.counter_party = a.counter_party))).length = 1)
    (hk : k ∈ (arap_df (df1_of A)).map RowA1.key
      ∨ k ∈ (accr_df (df1_of A)).map RowA1.key) :
    (∃ m ∈ apply_data_transformation (df1_of A), MergedRow.key m = k
       ∧ (k ∉ (accr_df (df1_of A)).map RowA1.key →
            m.accr_value = none ∧ m.max_rating_y = none)
       ∧ (k ∉ (arap_df (df1_of A)).map RowA1.key →
            m.arap_value = none ∧ m.max_rating_x = none))
    ∧ (process_data_pandas A B).countP (fun r => decide (OutRow.key r = k)) = 1
    ∧ (arap_df (df1_of A) ≠ [] → accr_df (df1_of A) ≠ [] →
        ∃ rows, apache_result_file A B = some rows
          ∧ rows.countP (fun r => decide (OutRow.key r = k)) = 1) := by
  have hkm : k ∈ (apply_data_transformation (df1_of A)).map MergedRow.key := by
    rw [apply_data_transformation]
    refine mem_key_mergeOuter.mpr ?_
    rcases hk with h | h
    · exact Or.inl (mem_key_groupby_agg.mpr h)
    · exact Or.inr (mem_key_groupby_agg.mpr h)
  rcases List.mem_map.mp hkm with ⟨m, hm, hmk⟩
  have hnd := nodup_merged_keys (df1_of A)
  have hlen :
      (B.filter (fun b => decide (b.counter_party = m.counter_party))).length = 1 := by
    rcases merged_row_from_df1 hm with ⟨r1, hr1, -, hk1⟩
    rcases List.mem_map.mp hr1 with ⟨a, ha, rfl⟩
    have hcp : a.counter_party = m.counter_party := congrArg Prod.snd hk1
    have h0 := hB a ha
    rw [hcp] at h0
    exact h0
  obtain ⟨hx, hy, -, hanone, -, hcnone⟩ := merged_fields hm
  refine ⟨⟨m, hm, hmk, ?_, ?_⟩, ?_, ?_⟩
  · intro hn
    refine ⟨hcnone (by rw [hmk]; exact hn), ?_⟩
    rw [hy, hmk]
    exact rating_agg_none hn
  · intro hn
    refine ⟨hanone (by rw [hmk]; exact hn), ?_⟩
    rw [hx, hmk]
    exact rating_agg_none hn
  · rw [process_data_pandas, merge_with_dataset2, List.countP_eq_length_filter, ← hmk,
      filter_key_flatMap MergedRow.key OutRow.key _ (pandas_join_key_preserving B) _ hnd m hm,
      List.length_map]
    exact hlen
  · intro hne1 hne2
    have hcond : ¬(arap_df (df1_of A) = [] ∨ accr_df (df1_of A) = []) := by
      rintro (h0 | h0)
      · exact hne1 h0
      · exact hne2 h0
    refine ⟨apache_join_dataset2 (apache_transformation_merged (df1_of A)) B, ?_, ?_⟩
    · rw [apache_result_file, if_neg hcond]
    · have hsame : apache_transformation_merged (df1_of A)
          = apply_data_transformation (df1_of A) := rfl
      rw [apache_join_dataset2, hsame, List.countP_eq_length_filter, ← hmk,
        filter_key_flatMap MergedRow.key OutRow.key _ (apache_join_key_preserving B) _ hnd m hm]
      have hbne :
          B.filter (fun b => decide (b.counter_party = m.counter_party)) ≠ [] := by
        intro h0
        rw [h0, List.length_nil] at hlen
        exact absurd hlen (by decide)
      rw [if_neg hbne, List.length_map]
      exact hlen

/-- Witness for the amended claim C3 at the scenario input — both status
subsets nonempty — and the key (E1,C2), which occurs only in the ARAP
subset. -/
theorem c3_completeness_witness :
    (∀ a ∈ scenarioA,
      (scenarioB.filter (fun b => decide (b.counter_party = a.counter_party))).length = 1)
    ∧ (("E1", "C2") ∈ (arap_df (df1_of scenarioA)).map RowA1.key
        ∨ ("E1", "C2") ∈ (accr_df (df1_of scenarioA)).map RowA1.key)
    ∧ ((∃ m ∈ apply_data_transformation (df1_of scenarioA), MergedRow.key m = ("E1", "C2")
          ∧ (("E1", "C2") ∉ (accr_df (df1_of scenarioA)).map RowA1.key →
              m.accr_value = none ∧ m.max_rating_y = none)
          ∧ (("E1", "C2") ∉ (arap_df (df1_of scenarioA)).map RowA1.key →
              m.arap_value = none ∧ m.max_rating_x = none))
        ∧ (process_data_pandas scenarioA scenarioB).countP
            (fun r => decide (OutRow.key r = ("E1", "C2"))) = 1
        ∧ (arap_df (df1_of scenarioA) ≠ [] → accr_df (df1_of scenarioA) ≠ [] →
            ∃ rows, apache_result_file scenarioA scenarioB = some rows
              ∧ rows.countP (fun r => decide (OutRow.key r = ("E1", "C2"))) = 1)) :=
  ⟨by decide, Or.inl (by decide),
    c3_completeness scenarioA scenarioB ("E1", "C2") (by decide) (Or.inl (by decide))⟩

/-- Dataset B with a duplicated counter_party key C1. -/
def c10B : List RowB := [⟨"C1", "TierA"⟩, ⟨"C1", "TierB"⟩]

/-- Claim C10 counterexample: on `cexA` (ACCR subset empty) with two
reference rows for C1, the pandas variant emits 2 rows for the merged
(E1,C1) aggregate, but the real Beam run crashes in
apply_data_transformation and writes no output rows at all — the two
variants do not both emit k rows. -/
theorem c10_duplicate_reference_rows_cex :
    cexMerged ∈ apply_data_transformation (df1_of cexA)
    ∧ (c10B.filter
        (fun b => decide (b.counter_party = cexMerged.counter_party))).length = 2
    ∧ apache_result_file cexA c10B = none
    ∧ (process_data_pandas cexA c10B).countP
        (fun r => decide (OutRow.key r = MergedRow.key cexMerged)) = 2 :=
  ⟨by decide, by decide, by decide, by decide⟩

/-- Claim C10 (amended): when dataset B holds n >= 2 matching rows for a
merged row's counter_party, the pandas variant emits exactly n output
rows for that key — one per matching B row, identical in everything but
the tier cell — with no error signalled; the Beam variant does the same
provided both status subsets are nonempty, and otherwise crashes on its
empty-subset pivot and writes nothing. -/
theorem c10_duplicate_reference_rows (A : List RowA) (B : List RowB) (m : MergedRow)
    (n : Nat) (hm : m ∈ apply_data_transformation (df1_of A))
    (hn : (B.filter (fun b => decide (b.counter_party = m.counter_party))).length = n)
    (h2 : 2 ≤ n) :
    (process_data_pandas A B).filter (fun r => decide (OutRow.key r = MergedRow.key m))
      = (B.filter (fun b => decide (b.counter_party = m.counter_party))).map
          (fun b => mkOutRow m (some b.tier))
    ∧ (process_data_pandas A B).countP
        (fun r => decide (OutRow.key r = MergedRow.key m)) = n
    ∧ (arap_df (df1_of A) ≠ [] → accr_df (df1_of A) ≠ [] →
        ∃ rows, apache_result_file A B = some rows
          ∧ rows.filter (fun r => decide (OutRow.key r = MergedRow.key m))
              = (B.filter (fun b => decide (b.counter_party = m.counter_party))).map
                  (fun b => mkOutRow m (some b.tier))
          ∧ rows.countP (fun r => decide (OutRow.key r = MergedRow.key m)) = n) := by
  have hnd := nodup_merged_keys (df1_of A)
  have hbne : B.filter (fun b => decide (b.counter_party = m.counter_party)) ≠ [] := by
    intro h0
    rw [h0, List.length_nil] at hn
    rw [← hn] at h2
    exact absurd h2 (by decide)
  have hfp : (process_data_pandas A B).filter
      (fun r => decide (OutRow.key r = MergedRow.key m))
      = (B.filter (fun b => decide (b.counter_party = m.counter_party))).map
          (fun b => mkOutRow m (some b.tier)) := by
    rw [process_data_pandas, merge_with_dataset2]
    exact filter_key_flatMap MergedRow.key OutRow.key _
      (pandas_join_key_preserving B) _ hnd m hm
  have hfa : (apache_join_dataset2 (apache_transformation_merged (df1_of A)) B).filter
      (fun r => decide (OutRow.key r = MergedRow.key m))
      = (B.filter (fun b => decide (b.counter_party = m.counter_party))).map
          (fun b => mkOutRow m (some b.tier)) := by
    have hsame : apache_transformation_merged (df1_of A)
        = apply_data_transformation (df1_of A) := rfl
    rw [apache_join_dataset2, hsame,
      filter_key_flatMap MergedRow.key OutRow.key _
        (apache_join_key_preserving B) _ hnd m hm,
      if_neg hbne]
  refine ⟨hfp, ?_, ?_⟩
  · rw [List.countP_eq_length_filter, hfp, List.length_map]
    exact hn
  · intro hne1 hne2
    have hcond : ¬(arap_df (df1_of A) = [] ∨ accr_df (df1_of A) = []) := by
      rintro (h0 | h0)
      · exact hne1 h0
      · exact hne2 h0
    refine ⟨apache_join_dataset2 (apache_transformation_merged (df1_of A)) B, ?_, hfa, ?_⟩
    · rw [apache_result_file, if_neg hcond]
    · rw [List.countP_eq_length_filter, hfa, List.length_map]
      exact hn

/-- The merged row of `c4A`, whose key (E1,C1) is in both subsets. -/
def c10m : MergedRow := ⟨"E1", "C1", some 100, some 3, some 50, some 7⟩

/-- Witness for the amended claim C10: on `c4A` (both subsets nonempty)
with two B rows for C1, both variants emit the two output rows
(E1,C1,TierA,7,100,50) and (E1,C1,TierB,7,100,50). -/
theorem c10_duplicate_reference_rows_witness :
    c10m ∈ apply_data_transformation (df1_of c4A)
    ∧ (c10B.filter
        (fun b => decide (b.counter_party = c10m.counter_party))).length = 2
    ∧ 2 ≤ 2
    ∧ ((process_data_pandas c4A c10B).filter
          (fun r => decide (OutRow.key r = MergedRow.key c10m))
        = (c10B.filter (fun b => decide (b.counter_party = c10m.counter_party))).map
            (fun b => mkOutRow c10m (some b.tier))
       ∧ (process_data_pandas c4A c10B).countP
            (fun r => decide (OutRow.key r = MergedRow.key c10m)) = 2
       ∧ (arap_df (df1_of c4A) ≠ [] → accr_df (df1_of c4A) ≠ [] →
           ∃ rows, apache_result_file c4A c10B = some rows
             ∧ rows.filter (fun r => decide (OutRow.key r = MergedRow.key c10m))
                 = (c10B.filter
                     (fun b => decide (b.counter_party = c10m.counter_party))).map
                     (fun b => mkOutRow c10m (some b.tier))
             ∧ rows.countP (fun r => decide (OutRow.key r = MergedRow.key c10m)) = 2)) :=
  ⟨by decide, by decide, by decide,
    c10_duplicate_reference_rows c4A c10B c10m 2 (by decide) (by decide) (by decide)⟩

/-- Claim C6: rows of dataset A whose status is neither ARAP nor ACCR are
excluded from both status subsets (each subset holds only its own
status), they change nothing in either pipeline's output (filtering them
away first gives the same output), and every output row's key is shared
with some ARAP or ACCR row of dataset A. -/
theorem c6_unknown_status_excluded (A : List RowA) (B : List RowB) :
    (arap_df (df1_of A)).all (fun r => decide (r.status = "ARAP")) = true
    ∧ (accr_df (df1_of A)).all (fun r => decide (r.status = "ACCR")) = true
    ∧ process_data_pandas A B
        = process_data_pandas
            (A.filter (fun a => decide (a.status = "ARAP" ∨ a.status = "ACCR"))) B
    ∧ process_data_apache A B
        = process_data_apache
            (A.filter (fun a => decide (a.status = "ARAP" ∨ a.status = "ACCR"))) B
    ∧ (process_data_pandas A B).all (fun r => A.any (fun a =>
        decide ((a.status = "ARAP" ∨ a.status = "ACCR")
          ∧ a.legal_entity = r.legal_entity ∧ a.counter_party = r.counter_party))) = true
    ∧ (process_data_apache A B).all (fun r => A.any (fun a =>
        decide ((a.status = "ARAP" ∨ a.status = "ACCR")
          ∧ a.legal_entity = r.legal_entity ∧ a.counter_party = r.counter_party))) = true := by
  have harap := filter_drop_status A "ARAP" (fun a h => Or.inl h)
  have haccr := filter_drop_status A "ACCR" (fun a h => Or.inr h)
  refine ⟨?_, ?_, ?_, ?_, ?_, ?_⟩
  · refine List.all_eq_true.mpr fun r hr => ?_
    rw [arap_df] at hr
    exact (List.mem_filter.mp hr).2
  · refine List.all_eq_true.mpr fun r hr => ?_
    rw [accr_df] at hr
    exact (List.mem_filter.mp hr).2
  · simp only [process_data_pandas, apply_data_transformation, arap_df, accr_df]
    rw [harap, haccr]
  · simp only [process_data_apache, apache_transformation_merged, arap_df, accr_df]
    rw [harap, haccr]
  · refine List.all_eq_true.mpr fun r hr => ?_
    obtain ⟨m, hm, t, rfl⟩ := out_row_cases (Or.inl hr)
    rcases merged_row_from_df1 hm with ⟨r1, hr1, hst, hk1⟩
    rcases List.mem_map.mp hr1 with ⟨a, ha, rfl⟩
    refine List.any_eq_true.mpr ⟨a, ha, decide_eq_true ?_⟩
    have hst2 : a.status = "ARAP" ∨ a.status = "ACCR" := hst
    have hle : a.legal_entity = (mkOutRow m t).legal_entity := congrArg Prod.fst hk1
    have hcp : a.counter_party = (mkOutRow m t).counter_party := congrArg Prod.snd hk1
    exact ⟨hst2, hle, hcp⟩
  · refine List.all_eq_true.mpr fun r hr => ?_
    obtain ⟨m, hm, t, rfl⟩ := out_row_cases (Or.inr hr)
    rcases merged_row_from_df1 hm with ⟨r1, hr1, hst, hk1⟩
    rcases List.mem_map.mp hr1 with ⟨a, ha, rfl⟩
    refine List.any_eq_true.mpr ⟨a, ha, decide_eq_true ?_⟩
    have hst2 : a.status = "ARAP" ∨ a.status = "ACCR" := hst
    have hle : a.legal_entity = (mkOutRow m t).legal_entity := congrArg Prod.fst hk1
    have hcp : a.counter_party = (mkOutRow m t).counter_party := congrArg Prod.snd hk1
    exact ⟨hst2, hle, hcp⟩

/-- Claim C7: both variants' written tables have exactly the six columns
legal_entity, counter_party, tier, ratings, arap_value, accr_value in
that order as header, the intermediate per-status rating columns are
absent, and every data row has exactly six cells (no index column). -/
theorem c7_output_columns (A : List RowA) (B : List RowB) :
    (save_result_pandas (process_data_pandas A B)).1
      = ["legal_entity", "counter_party", "tier", "ratings", "arap_value", "accr_value"]
    ∧ (save_result_apache (process_data_apache A B)).1
      = ["legal_entity", "counter_party", "tier", "ratings", "arap_value", "accr_value"]
    ∧ "max_rating_x" ∉ (save_result_pandas (process_data_pandas A B)).1
    ∧ "max_rating_y" ∉ (save_result_pandas (process_data_pandas A B)).1
    ∧ "rating_x" ∉ (save_result_apache (process_data_apache A B)).1
    ∧ "rating_y" ∉ (save_result_apache (process_data_apache A B)).1
    ∧ ((save_result_pandas (process_data_pandas A B)).2).all
        (fun cells => decide (cells.length = 6)) = true
    ∧ ((save_result_apache (process_data_apache A B)).2).all
        (fun cells => decide (cells.length = 6)) = true := by
  refine ⟨rfl, rfl, ?_, ?_, ?_, ?_, ?_, ?_⟩
  · show ("max_rating_x" : String) ∉ result_columns_pandas
    decide
  · show ("max_rating_y" : String) ∉ result_columns_pandas
    decide
  · show ("rating_x" : String) ∉ result_columns_apache
    decide
  · show ("rating_y" : String) ∉ result_columns_apache
    decide
  · refine List.all_eq_true.mpr fun cells hc => ?_
    rcases List.mem_map.mp hc with ⟨r, -, rfl⟩
    rfl
  · refine List.all_eq_true.mpr fun cells hc => ?_
    rcases List.mem_map.mp hc with ⟨r, -, rfl⟩
    rfl

end Hartree
